import Mathlib

/-!
Shallow embedding of the question classification and clustering pipeline of the
classroom feedback server (`server.js`): keyword extraction, rule-based
categorization, the AI-backed classification orchestrator with its kill switch
and fallbacks, Jaccard similarity matching, topic summarization, and the
`submit-question` ingestion handler.  The linguistic tagger (the `compromise`
library) and the remote HuggingFace classifiers are external collaborators and
are modelled as explicit function parameters; everything else is translated
directly from the source.
-/

namespace Classroom

/-- The linguistic tagger capability provided by the external `compromise`
library: for a text it yields the nouns, verbs and adjectives, in that order,
as lists of token strings. -/
structure Tagger where
  nouns : String → List String
  verbs : String → List String
  adjectives : String → List String

/-- A degenerate tagger that recognizes no tokens at all (what `compromise`
does on empty or punctuation-only input). -/
def emptyTagger : Tagger :=
  ⟨fun _ => [], fun _ => [], fun _ => []⟩

/-- A row of the `questions` table as read back for the similarity corpus;
only the fields the pipeline actually reads are carried. -/
structure ExistingQuestion where
  id : String
  question_text : String
deriving DecidableEq

/-- One entry of the similarity result pushed by `findSimilarQuestions`. -/
structure SimilarityEntry where
  questionId : String
  similarity : Rat
  text : String
deriving DecidableEq

/-- A member of the cluster handed to `generateTopicSummary`; the source only
ever reads `question_text` from it. -/
structure ClusterQuestion where
  question_text : String
deriving DecidableEq

/-- The object returned by `generateTopicSummary`. -/
structure TopicSummary where
  title : String
  keywords : List String
  questionCount : Nat
  urgency : String
deriving DecidableEq

/-- Stable insertion into a list kept in descending `key` order: the new
element goes in front of the first element whose key is less than or equal to
its own, so elements already present win ties. -/
def insertByDesc {α β : Type} [LinearOrder β] (key : α → β) (a : α) : List α → List α
  | [] => [a]
  | b :: rest => if key b ≤ key a then a :: b :: rest else b :: insertByDesc key a rest

/-- Stable sort into descending `key` order (insertion sort).  JavaScript
`Array.prototype.sort` is required to be stable, and a stable sort by a given
comparator has a unique output, so this is a faithful model of
`.sort((a, b) => b.key - a.key)`. -/
def sortByDesc {α β : Type} [LinearOrder β] (key : α → β) : List α → List α
  | [] => []
  | a :: rest => insertByDesc key a (sortByDesc key rest)

/-- `s.toLowerCase()` of JavaScript, character by character. -/
def toLowerStr (s : String) : String :=
  String.mk (s.toList.map Char.toLower)

namespace FreeAI

/-- `FreeAI.extractKeywords`: concatenate the tagger's nouns, verbs and
adjectives, keep tokens longer than 2 characters, and take the first 5. -/
def extractKeywords (tg : Tagger) (text : String) : List String :=
  ((tg.nouns text ++ tg.verbs text ++ tg.adjectives text).filter
    (fun word => 2 < word.length)).take 5

/-- Helper for `containsSub`: does `pat` occur as a contiguous sublist? -/
def containsSubList (pat : List Char) : List Char → Bool
  | [] => pat.isEmpty
  | c :: rest => pat.isPrefixOf (c :: rest) || containsSubList pat rest

/-- `text.includes(pat)` of JavaScript: `pat` occurs as a contiguous
substring of `text`. -/
def containsSub (text pat : String) : Bool :=
  containsSubList pat.toList text.toList

/-- `FreeAI.categorizeQuestion`: rule-based categorization by case-insensitive
substring matching, first match wins, in the source's order. -/
def categorizeQuestion (text : String) : String :=
  let lowerText := toLowerStr text
  if containsSub lowerText "what is" || containsSub lowerText "define" ||
      containsSub lowerText "meaning" || containsSub lowerText "mean" then
    "definition"
  else if containsSub lowerText "how to" || containsSub lowerText "steps" ||
      containsSub lowerText "process" || containsSub lowerText "procedure" then
    "process"
  else if containsSub lowerText "why" || containsSub lowerText "reason" ||
      containsSub lowerText "because" || containsSub lowerText "purpose" then
    "reasoning"
  else if containsSub lowerText "example" || containsSub lowerText "instance" ||
      containsSub lowerText "case" || containsSub lowerText "sample" then
    "examples"
  else if containsSub lowerText "confused" || containsSub lowerText "unclear" ||
      containsSub lowerText "understand" || containsSub lowerText "explain" then
    "clarification"
  else
    "general"

/-- The keyword set used by the similarity matcher:
`new Set(extractKeywords(text.toLowerCase()))`. -/
def keywordSet (tg : Tagger) (text : String) : Finset String :=
  (extractKeywords tg (toLowerStr text)).toFinset

/-- Jaccard similarity of two keyword sets, `|A ∩ B| / |A ∪ B|`.  When both
sets are empty the quotient `0 / 0` is `0` by the division convention, which
matches the observable behaviour of the source (the NaN it computes there is
not greater than the threshold, so the pair is dropped). -/
def jaccard (a b : Finset String) : Rat :=
  ((a ∩ b).card : Rat) / ((a ∪ b).card : Rat)

/-- The `similarities` array built by the `forEach` loop of
`FreeAI.findSimilarQuestions`, in corpus order: one entry per existing
question whose Jaccard similarity against the new question exceeds 0.3. -/
def similarCandidates (tg : Tagger) (newQuestion : String)
    (existing : List ExistingQuestion) : List SimilarityEntry :=
  existing.filterMap (fun e =>
    if (3 : Rat) / 10 < jaccard (keywordSet tg newQuestion) (keywordSet tg e.question_text) then
      some ⟨e.id, jaccard (keywordSet tg newQuestion) (keywordSet tg e.question_text),
        e.question_text⟩
    else none)

/-- `FreeAI.findSimilarQuestions`: the thresholded candidates sorted
descending by similarity (stably, as JavaScript `sort` is stable). -/
def findSimilarQuestions (tg : Tagger) (newQuestion : String)
    (existing : List ExistingQuestion) : List SimilarityEntry :=
  sortByDesc (fun e => e.similarity) (similarCandidates tg newQuestion existing)

/-- One step of the `keywordFreq` accumulation: bump the count of `k` if it
is already a key, otherwise append it with count 1 (JavaScript object keys
keep insertion order, i.e. first-seen order). -/
def bumpFreq (acc : List (String × Nat)) (k : String) : List (String × Nat) :=
  if acc.any (fun p => p.1 == k) then
    acc.map (fun p => if p.1 == k then (p.1, p.2 + 1) else p)
  else
    acc ++ [(k, 1)]

/-- The keyword frequency table of `generateTopicSummary`, keys in first-seen
order. -/
def keywordFreq (ks : List String) : List (String × Nat) :=
  ks.foldl bumpFreq []

/-- `allKeywords` of `generateTopicSummary`: the keywords of every cluster
member, accumulated by pushing in order. -/
def clusterKeywords (tg : Tagger) (questions : List ClusterQuestion) : List String :=
  questions.foldl (fun acc q => acc ++ extractKeywords tg q.question_text) []

/-- `FreeAI.generateTopicSummary`: `null` on an empty cluster, otherwise the
top-3 keywords by frequency (stable sort, so ties keep first-seen order)
joined with " & ", the cluster size, and the size-derived urgency tier. -/
def generateTopicSummary (tg : Tagger) (questions : List ClusterQuestion) :
    Option TopicSummary :=
  if questions.length = 0 then none
  else
    let allKeywords := clusterKeywords tg questions
    let topKeywords := ((sortByDesc (fun p => p.2) (keywordFreq allKeywords)).take 3).map Prod.fst
    some ⟨String.intercalate " & " topKeywords, topKeywords, questions.length,
      if 2 < questions.length then "high"
      else if 1 < questions.length then "medium" else "low"⟩

end FreeAI

/-- Process-wide configuration read by the orchestrator on every call:
`AI_ENABLED !== 'false'` (the kill switch) and whether `HUGGINGFACE_API_KEY`
is set (so that the `hf` client object exists). -/
structure AIConfig where
  aiEnabled : Bool
  hasCredential : Bool

/-- Outcome of a successful remote zero-shot classification, abstracted to
the top label and its score, which is all the source reads from it. -/
structure ZeroShotResult where
  label : String
  score : Rat

/-- Outcome of a successful remote sentiment classification: top label and
its score. -/
structure SentimentResult where
  label : String
  score : Rat

/-- `s.split(' ')[0]` of JavaScript. -/
def firstWord (s : String) : String :=
  (s.splitOn " ").headD ""

namespace EnhancedAI

/-- `EnhancedAI.categorizeQuestion`: rule-based fallback when the kill switch
is off or no credential is configured; otherwise consult the remote zero-shot
classifier, taking the first word of its lower-cased top label, and fall back
to the rule-based categorizer on any error.  The second component counts
remote-adapter invocations. -/
def categorizeQuestionE (cfg : AIConfig)
    (remote : String → Except Unit ZeroShotResult) (text : String) : String × Nat :=
  if cfg.aiEnabled = false then
    (FreeAI.categorizeQuestion text, 0)
  else if cfg.hasCredential = false then
    (FreeAI.categorizeQuestion text, 0)
  else
    match remote text with
    | Except.ok r => (firstWord (toLowerStr r.label), 1)
    | Except.error _ => (FreeAI.categorizeQuestion text, 1)

/-- `EnhancedAI.analyzeSentiment`: neutral when the kill switch is off or no
credential is configured; otherwise consult the remote sentiment classifier,
mapping negative above 0.6 to confused and positive above 0.7 to excited,
and fall back to neutral on any error.  The second component counts
remote-adapter invocations. -/
def analyzeSentimentE (cfg : AIConfig)
    (remote : String → Except Unit SentimentResult) (text : String) : String × Nat :=
  if cfg.aiEnabled = false || cfg.hasCredential = false then
    ("neutral", 0)
  else
    match remote text with
    | Except.ok r =>
        (if toLowerStr r.label = "negative" ∧ (6 : Rat) / 10 < r.score then "confused"
         else if toLowerStr r.label = "positive" ∧ (7 : Rat) / 10 < r.score then "excited"
         else "neutral", 1)
    | Except.error _ => ("neutral", 1)

end EnhancedAI

/-- The classification step of the ingestion handler: category and sentiment
as computed by the two `EnhancedAI` calls, with the total number of
remote-adapter invocations. -/
def classify (cfg : AIConfig) (remoteCat : String → Except Unit ZeroShotResult)
    (remoteSent : String → Except Unit SentimentResult) (text : String) :
    (String × String) × Nat :=
  let c := EnhancedAI.categorizeQuestionE cfg remoteCat text
  let s := EnhancedAI.analyzeSentimentE cfg remoteSent text
  ((c.1, s.1), c.2 + s.2)

/-- The payload of a `submit-question` socket event, as destructured by the
handler: note that it carries a client-supplied `sentiment` field. -/
structure SubmissionData where
  sessionCode : String
  studentName : String
  questionText : String
  sentiment : String
deriving DecidableEq

/-- The row inserted into the `questions` table by the handler (the columns
it supplies; `timestamp` and `upvotes` take their defaults). -/
structure QuestionRow where
  id : String
  session_id : String
  student_name : String
  question_text : String
  sentiment : String
  topic_cluster : String
deriving DecidableEq

/-- The enriched `questionData` record broadcast as the `new-question`
event (the `timestamp` field, a wall-clock read, is omitted). -/
structure QuestionData where
  id : String
  sessionId : String
  studentName : String
  questionText : String
  sentiment : String
  category : String
  topicCluster : String
  similarQuestions : List SimilarityEntry
  topicSummary : Option TopicSummary
  upvotes : Nat
deriving DecidableEq

/-- The `db.all` callback's recovery: on a storage read error the corpus is
replaced by the empty list and processing continues. -/
def corpusOf (corpusResult : Except Unit (List ExistingQuestion)) : List ExistingQuestion :=
  match corpusResult with
  | Except.error _ => []
  | Except.ok qs => qs

/-- The `relatedQuestions` cluster of the handler: the corpus members matched
by the similarity search, with the new question pushed at the end. -/
def relatedQuestionsOf (tg : Tagger) (corpusResult : Except Unit (List ExistingQuestion))
    (questionText : String) : List ClusterQuestion :=
  let existingQuestions := corpusOf corpusResult
  let similarQuestions := FreeAI.findSimilarQuestions tg questionText existingQuestions
  (existingQuestions.filter
    (fun q => similarQuestions.any (fun s => s.questionId == q.id))).map
      (fun q => ClusterQuestion.mk q.question_text) ++ [ClusterQuestion.mk questionText]

/-- The `submit-question` handler: classify, read the corpus (substituting an
empty corpus on a storage error), match similar questions, build the cluster
from the matched corpus members plus the new question, summarize it, and
produce both the persisted row and the broadcast record.  The fresh UUID and
the corpus read outcome are parameters. -/
def handleSubmitQuestion (tg : Tagger) (cfg : AIConfig)
    (remoteCat : String → Except Unit ZeroShotResult)
    (remoteSent : String → Except Unit SentimentResult)
    (questionId : String)
    (corpusResult : Except Unit (List ExistingQuestion))
    (data : SubmissionData) : QuestionRow × QuestionData :=
  let category := (EnhancedAI.categorizeQuestionE cfg remoteCat data.questionText).1
  let analyzedSentiment := (EnhancedAI.analyzeSentimentE cfg remoteSent data.questionText).1
  let existingQuestions := corpusOf corpusResult
  let similarQuestions := FreeAI.findSimilarQuestions tg data.questionText existingQuestions
  let topicSummary := FreeAI.generateTopicSummary tg
    (relatedQuestionsOf tg corpusResult data.questionText)
  let topicCluster := match topicSummary with
    | some s => s.title
    | none => category
  (⟨questionId, data.sessionCode, data.studentName, data.questionText,
      analyzedSentiment, topicCluster⟩,
   ⟨questionId, data.sessionCode, data.studentName, data.questionText,
      data.sentiment, category, topicCluster, similarQuestions, topicSummary, 0⟩)

/-- The precedence-ordered rule table of the spec, section 4.2: patterns and
the category the first matching rule yields. -/
def categorizeRules : List (List String × String) :=
  [(["what is", "define", "meaning", "mean"], "definition"),
   (["how to", "steps", "process", "procedure"], "process"),
   (["why", "reason", "because", "purpose"], "reasoning"),
   (["example", "instance", "case", "sample"], "examples"),
   (["confused", "unclear", "understand", "explain"], "clarification")]

/-- Spec-side reformulation of the rule-based categorizer for the refinement
in C5: first-match-wins over the fixed precedence order of `categorizeRules`,
with case-insensitive substring matching, defaulting to "general". -/
def categorizeSpec (text : String) : String :=
  match categorizeRules.find?
      (fun r => r.1.any (fun pat => FreeAI.containsSub (toLowerStr text) pat)) with
  | some r => r.2
  | none => "general"

theorem insertByDesc_perm {α β : Type} [LinearOrder β] (key : α → β) (a : α) (l : List α) :
    List.Perm (insertByDesc key a l) (a :: l) := by
  induction l with
  | nil => rfl
  | cons b rest ih =>
    rw [insertByDesc]
    split
    · exact List.Perm.refl _
    · exact (ih.cons b).trans (List.Perm.swap a b rest)

theorem sortByDesc_perm {α β : Type} [LinearOrder β] (key : α → β) (l : List α) :
    List.Perm (sortByDesc key l) l := by
  induction l with
  | nil => rfl
  | cons a rest ih => exact (insertByDesc_perm key a (sortByDesc key rest)).trans (ih.cons a)

theorem mem_insertByDesc {α β : Type} [LinearOrder β] {key : α → β} {a x : α} {l : List α} :
    x ∈ insertByDesc key a l ↔ x = a ∨ x ∈ l := by
  rw [(insertByDesc_perm key a l).mem_iff, List.mem_cons]

theorem pairwise_insertByDesc {α β : Type} [LinearOrder β] {key : α → β} (a : α) {l : List α}
    (h : l.Pairwise (fun x y => key y ≤ key x)) :
    (insertByDesc key a l).Pairwise (fun x y => key y ≤ key x) := by
  induction l with
  | nil => simp [insertByDesc]
  | cons b rest ih =>
    rw [insertByDesc]
    rw [List.pairwise_cons] at h
    split
    · rename_i hba
      refine List.pairwise_cons.mpr ⟨?_, List.pairwise_cons.mpr h⟩
      intro x hx
      rcases List.mem_cons.mp hx with hxb | hxr
      · exact hxb ▸ hba
      · exact le_trans (h.1 x hxr) hba
    · rename_i hba
      refine List.pairwise_cons.mpr ⟨?_, ih h.2⟩
      intro x hx
      rcases mem_insertByDesc.mp hx with hxa | hxr
      · exact hxa ▸ le_of_not_le hba
      · exact h.1 x hxr

theorem pairwise_sortByDesc {α β : Type} [LinearOrder β] (key : α → β) (l : List α) :
    (sortByDesc key l).Pairwise (fun x y => key y ≤ key x) := by
  induction l with
  | nil => simp [sortByDesc]
  | cons a rest ih => exact pairwise_insertByDesc a ih

theorem filter_insertByDesc {α β : Type} [LinearOrder β] (key : α → β) (c : β) (a : α)
    (l : List α) :
    (insertByDesc key a l).filter (fun x => key x = c) =
      if key a = c then a :: l.filter (fun x => key x = c)
      else l.filter (fun x => key x = c) := by
  induction l with
  | nil => by_cases hac : key a = c <;> simp [insertByDesc, hac]
  | cons b rest ih =>
    rw [insertByDesc]
    split
    · rename_i hba
      by_cases hac : key a = c <;> simp [List.filter_cons, hac]
    · rename_i hba
      by_cases hac : key a = c
      · have hbc : ¬ (key b = c) := by
          intro hbc
          exact hba (le_of_eq (hbc.trans hac.symm))
        simp [List.filter_cons, hbc, ih, hac]
      · by_cases hbc : key b = c <;> simp [List.filter_cons, hbc, ih, hac]

/-- Stability of the descending insertion sort: the elements at any fixed key
value come out in exactly their input order. -/
theorem filter_sortByDesc {α β : Type} [LinearOrder β] (key : α → β) (c : β) (l : List α) :
    (sortByDesc key l).filter (fun x => key x = c) = l.filter (fun x => key x = c) := by
  induction l with
  | nil => rfl
  | cons a rest ih =>
    rw [sortByDesc, filter_insertByDesc]
    by_cases hac : key a = c <;> simp [List.filter_cons, hac, ih]

/-- C2: when the kill switch `aiEnabled` is false, or when no credential is
configured, `classify` returns the rule-based category paired with neutral
sentiment and performs zero remote-adapter calls, for every input text and
regardless of credential presence. -/
theorem C2_kill_switch_rule_based_no_remote_calls
    (remoteCat : String → Except Unit ZeroShotResult)
    (remoteSent : String → Except Unit SentimentResult) (text : String) (b1 b2 : Bool) :
    classify ⟨false, b1⟩ remoteCat remoteSent text =
      ((FreeAI.categorizeQuestion text, "neutral"), 0) ∧
    classify ⟨b2, false⟩ remoteCat remoteSent text =
      ((FreeAI.categorizeQuestion text, "neutral"), 0) := by
  refine ⟨rfl, ?_⟩
  cases b2 <;> rfl

/-- C7: with the remote adapter enabled, a failing remote call never
propagates: a category failure falls back to the rule-based categorizer and a
sentiment failure falls back to neutral, each independently of the other
adapter's outcome. -/
theorem C7_remote_error_fallback_independent
    (remoteCat : String → Except Unit ZeroShotResult)
    (remoteSent : String → Except Unit SentimentResult) (text : String) :
    (remoteCat text = Except.error () →
      (classify ⟨true, true⟩ remoteCat remoteSent text).1.1 =
        FreeAI.categorizeQuestion text) ∧
    (remoteSent text = Except.error () →
      (classify ⟨true, true⟩ remoteCat remoteSent text).1.2 = "neutral") := by
  constructor
  · intro h
    simp [classify, EnhancedAI.categorizeQuestionE, h]
  · intro h
    simp [classify, EnhancedAI.analyzeSentimentE, h]

/-- Witness for C7 at a concrete input with both remote calls failing. -/
theorem C7_remote_error_fallback_independent_witness :
    (classify ⟨true, true⟩ (fun _ => Except.error ()) (fun _ => Except.error ())
      "What is ROI?").1.1 = FreeAI.categorizeQuestion "What is ROI?" ∧
    (classify ⟨true, true⟩ (fun _ => Except.error ()) (fun _ => Except.error ())
      "What is ROI?").1.2 = "neutral" :=
  ⟨(C7_remote_error_fallback_independent (fun _ => Except.error ())
      (fun _ => Except.error ()) "What is ROI?").1 rfl,
   (C7_remote_error_fallback_independent (fun _ => Except.error ())
      (fun _ => Except.error ()) "What is ROI?").2 rfl⟩

/-- C8: when the corpus read fails, the handler substitutes an empty corpus
and behaves exactly as with an empty corpus: the question is still classified
and a row and broadcast record are still produced, merely with an empty
similarity set. -/
theorem C8_storage_failure_empty_corpus (tg : Tagger) (cfg : AIConfig)
    (remoteCat : String → Except Unit ZeroShotResult)
    (remoteSent : String → Except Unit SentimentResult)
    (questionId : String) (data : SubmissionData) :
    handleSubmitQuestion tg cfg remoteCat remoteSent questionId (Except.error ()) data =
      handleSubmitQuestion tg cfg remoteCat remoteSent questionId (Except.ok []) data ∧
    (handleSubmitQuestion tg cfg remoteCat remoteSent questionId
      (Except.error ()) data).2.similarQuestions = [] ∧
    (handleSubmitQuestion tg cfg remoteCat remoteSent questionId
      (Except.error ()) data).2.category =
        (EnhancedAI.categorizeQuestionE cfg remoteCat data.questionText).1 ∧
    (handleSubmitQuestion tg cfg remoteCat remoteSent questionId
      (Except.error ()) data).1.sentiment =
        (EnhancedAI.analyzeSentimentE cfg remoteSent data.questionText).1 :=
  ⟨rfl, rfl, rfl, rfl⟩

/-- C9: `extractKeywords` yields at most 5 entries, each at least 3
characters long, and yields the empty list whenever the tagger recognizes no
tokens at all in the text (as `compromise` does on empty or punctuation-only
input). -/
theorem C9_extractKeywords_bounds (tg : Tagger) (text : String) :
    (FreeAI.extractKeywords tg text).length ≤ 5 ∧
    (∀ w ∈ FreeAI.extractKeywords tg text, 3 ≤ w.length) ∧
    (tg.nouns text = [] → tg.verbs text = [] → tg.adjectives text = [] →
      FreeAI.extractKeywords tg text = []) := by
  refine ⟨?_, ?_, ?_⟩
  · exact List.length_take_le 5 _
  · intro w hw
    have hw2 := List.mem_of_mem_take hw
    have := (List.mem_filter.mp hw2).2
    simp only [decide_eq_true_eq] at this
    omega
  · intro h1 h2 h3
    simp [FreeAI.extractKeywords, h1, h2, h3]

/-- Witness for C9: with a tagger yielding no tokens, the keyword set of the
empty text is empty. -/
theorem C9_extractKeywords_bounds_witness :
    FreeAI.extractKeywords emptyTagger "" = [] :=
  (C9_extractKeywords_bounds emptyTagger "").2.2 rfl rfl rfl

/-- C1, refuted at a concrete input: with the AI disabled the analyzed
sentiment is neutral, and the handler persists neutral in the database row,
but the broadcast `questionData` record carries the client-supplied
"excited" instead of the analyzed sentiment. -/
theorem C1_emitted_sentiment_is_client_supplied :
    (handleSubmitQuestion emptyTagger ⟨false, false⟩ (fun _ => Except.error ())
        (fun _ => Except.error ()) "q1" (Except.ok [])
        ⟨"ROOM1", "alice", "What is ROI?", "excited"⟩).2.sentiment = "excited" ∧
    (EnhancedAI.analyzeSentimentE ⟨false, false⟩ (fun _ => Except.error ())
      "What is ROI?").1 = "neutral" ∧
    (handleSubmitQuestion emptyTagger ⟨false, false⟩ (fun _ => Except.error ())
        (fun _ => Except.error ()) "q1" (Except.ok [])
        ⟨"ROOM1", "alice", "What is ROI?", "excited"⟩).1.sentiment = "neutral" ∧
    ("excited" : String) ≠ "neutral" := by
  refine ⟨rfl, rfl, rfl, by decide⟩

/-- C3: `findSimilarQuestions` returns exactly the corpus members whose
Jaccard similarity over keyword sets strictly exceeds 0.30, sorted descending
by score with the original corpus order preserved on equal scores (the
candidates list is in corpus order), and an empty corpus yields an empty
result. -/
theorem C3_findSimilar_threshold_sorted_stable (tg : Tagger) (newQ : String)
    (corpus : List ExistingQuestion) :
    (∀ e : SimilarityEntry, e ∈ FreeAI.findSimilarQuestions tg newQ corpus ↔
      ∃ q ∈ corpus,
        (3 : Rat) / 10 < FreeAI.jaccard (FreeAI.keywordSet tg newQ)
          (FreeAI.keywordSet tg q.question_text) ∧
        e = ⟨q.id, FreeAI.jaccard (FreeAI.keywordSet tg newQ)
          (FreeAI.keywordSet tg q.question_text), q.question_text⟩) ∧
    (FreeAI.findSimilarQuestions tg newQ corpus).Pairwise
      (fun a b => b.similarity ≤ a.similarity) ∧
    (∀ sc : Rat, (FreeAI.findSimilarQuestions tg newQ corpus).filter
        (fun e => e.similarity = sc) =
      (FreeAI.similarCandidates tg newQ corpus).filter (fun e => e.similarity = sc)) ∧
    FreeAI.findSimilarQuestions tg newQ [] = [] := by
  refine ⟨?_, ?_, ?_, rfl⟩
  · intro e
    rw [FreeAI.findSimilarQuestions, (sortByDesc_perm _ _).mem_iff,
      FreeAI.similarCandidates, List.mem_filterMap]
    constructor
    · rintro ⟨q, hq, hfq⟩
      refine ⟨q, hq, ?_⟩
      by_cases hc : (3 : Rat) / 10 < FreeAI.jaccard (FreeAI.keywordSet tg newQ)
          (FreeAI.keywordSet tg q.question_text)
      · rw [if_pos hc] at hfq
        cases hfq
        exact ⟨hc, rfl⟩
      · rw [if_neg hc] at hfq
        cases hfq
    · rintro ⟨q, hq, hc, he⟩
      exact ⟨q, hq, by rw [if_pos hc, he]⟩
  · exact pairwise_sortByDesc (fun e : SimilarityEntry => e.similarity) _
  · intro sc
    exact filter_sortByDesc (fun e : SimilarityEntry => e.similarity) sc _

/-- C4: when both keyword sets are empty the Jaccard computation yields 0
(no division-by-zero failure) and the pair contributes no entry to the
similarity result. -/
theorem C4_empty_keyword_sets_zero_and_excluded (tg : Tagger) (newQ : String)
    (q : ExistingQuestion) (before after : List ExistingQuestion)
    (h1 : FreeAI.keywordSet tg newQ = ∅) (h2 : FreeAI.keywordSet tg q.question_text = ∅) :
    FreeAI.jaccard (FreeAI.keywordSet tg newQ) (FreeAI.keywordSet tg q.question_text) = 0 ∧
    FreeAI.findSimilarQuestions tg newQ (before ++ q :: after) =
      FreeAI.findSimilarQuestions tg newQ (before ++ after) := by
  have hj : FreeAI.jaccard (FreeAI.keywordSet tg newQ)
      (FreeAI.keywordSet tg q.question_text) = 0 := by
    rw [h1, h2]
    simp [FreeAI.jaccard]
  refine ⟨hj, ?_⟩
  have hnone : ¬ ((3 : Rat) / 10 < FreeAI.jaccard (FreeAI.keywordSet tg newQ)
      (FreeAI.keywordSet tg q.question_text)) := by
    rw [hj]
    norm_num
  simp [FreeAI.findSimilarQuestions, FreeAI.similarCandidates, List.filterMap_append,
    List.filterMap_cons, hnone]

/-- Witness for C4 at a concrete input: a tagger with no tokens makes both
keyword sets empty, the similarity is 0, and the corpus member is excluded. -/
theorem C4_empty_keyword_sets_zero_and_excluded_witness :
    FreeAI.jaccard (FreeAI.keywordSet emptyTagger "")
      (FreeAI.keywordSet emptyTagger "") = 0 ∧
    FreeAI.findSimilarQuestions emptyTagger "" ([] ++ ⟨"q1", ""⟩ :: []) =
      FreeAI.findSimilarQuestions emptyTagger "" ([] ++ []) :=
  C4_empty_keyword_sets_zero_and_excluded emptyTagger "" ⟨"q1", ""⟩ [] [] rfl rfl

/-- C5: the rule-based categorizer is total on strings and agrees with the
first-match-wins reading of the precedence-ordered rule table, and maps the
spec's six sample questions to the stated categories. -/
theorem C5_categorize_first_match_wins :
    (∀ text : String, FreeAI.categorizeQuestion text = categorizeSpec text) ∧
    FreeAI.categorizeQuestion "What is ROI?" = "definition" ∧
    FreeAI.categorizeQuestion "How to compute IRR" = "process" ∧
    FreeAI.categorizeQuestion "Why does this happen" = "reasoning" ∧
    FreeAI.categorizeQuestion "Can you give an example" = "examples" ∧
    FreeAI.categorizeQuestion "I\x27m confused about this" = "clarification" ∧
    FreeAI.categorizeQuestion "Tell me about bonds" = "general" := by
  refine ⟨?_, by decide, by decide, by decide, by decide, by decide, by decide⟩
  intro t
  simp only [FreeAI.categorizeQuestion, categorizeSpec, categorizeRules, List.find?,
    List.any_cons, List.any_nil, Bool.or_false, Bool.or_assoc]
  by_cases h1 : (FreeAI.containsSub (toLowerStr t) "what is" ||
      (FreeAI.containsSub (toLowerStr t) "define" ||
      (FreeAI.containsSub (toLowerStr t) "meaning" ||
      FreeAI.containsSub (toLowerStr t) "mean"))) = true <;>
  by_cases h2 : (FreeAI.containsSub (toLowerStr t) "how to" ||
      (FreeAI.containsSub (toLowerStr t) "steps" ||
      (FreeAI.containsSub (toLowerStr t) "process" ||
      FreeAI.containsSub (toLowerStr t) "procedure"))) = true <;>
  by_cases h3 : (FreeAI.containsSub (toLowerStr t) "why" ||
      (FreeAI.containsSub (toLowerStr t) "reason" ||
      (FreeAI.containsSub (toLowerStr t) "because" ||
      FreeAI.containsSub (toLowerStr t) "purpose"))) = true <;>
  by_cases h4 : (FreeAI.containsSub (toLowerStr t) "example" ||
      (FreeAI.containsSub (toLowerStr t) "instance" ||
      (FreeAI.containsSub (toLowerStr t) "case" ||
      FreeAI.containsSub (toLowerStr t) "sample"))) = true <;>
  by_cases h5 : (FreeAI.containsSub (toLowerStr t) "confused" ||
      (FreeAI.containsSub (toLowerStr t) "unclear" ||
      (FreeAI.containsSub (toLowerStr t) "understand" ||
      FreeAI.containsSub (toLowerStr t) "explain"))) = true <;>
  simp [h1, h2, h3, h4, h5]

/-- C6: `generateTopicSummary` returns none on the empty cluster; on a
nonempty cluster it returns the cluster size as `questionCount`, the
size-thresholded urgency, and a label joining at most 3 keywords that are a
maximal-frequency selection from the frequency table (sorted descending by
count, ties keeping first-seen order). -/
theorem C6_topic_summary_shape (tg : Tagger) (q : ClusterQuestion)
    (rest : List ClusterQuestion) :
    FreeAI.generateTopicSummary tg [] = none ∧
    ∃ s, FreeAI.generateTopicSummary tg (q :: rest) = some s ∧
      s.questionCount = (q :: rest).length ∧
      s.urgency = (if 2 < (q :: rest).length then "high"
        else if 1 < (q :: rest).length then "medium" else "low") ∧
      s.title = String.intercalate " & " s.keywords ∧
      s.keywords.length = min 3
        (FreeAI.keywordFreq (FreeAI.clusterKeywords tg (q :: rest))).length ∧
      ∃ entries : List (String × Nat),
        List.Perm entries (FreeAI.keywordFreq (FreeAI.clusterKeywords tg (q :: rest))) ∧
        entries.Pairwise (fun a b => b.2 ≤ a.2) ∧
        (∀ c : Nat, entries.filter (fun p => p.2 = c) =
          (FreeAI.keywordFreq (FreeAI.clusterKeywords tg (q :: rest))).filter
            (fun p => p.2 = c)) ∧
        s.keywords = (entries.take 3).map Prod.fst := by
  refine ⟨rfl, ?_⟩
  rw [FreeAI.generateTopicSummary, if_neg (by simp)]
  refine ⟨_, rfl, rfl, rfl, rfl, ?_, ?_⟩
  · simp [List.length_take, (sortByDesc_perm (fun p : String × Nat => p.2)
      (FreeAI.keywordFreq (FreeAI.clusterKeywords tg (q :: rest)))).length_eq]
  · exact ⟨sortByDesc (fun p => p.2)
      (FreeAI.keywordFreq (FreeAI.clusterKeywords tg (q :: rest))),
      sortByDesc_perm _ _, pairwise_sortByDesc _ _,
      fun c => filter_sortByDesc (fun p : String × Nat => p.2) c _, rfl⟩

theorem generateTopicSummary_append_singleton (tg : Tagger)
    (qs : List ClusterQuestion) (x : ClusterQuestion) :
    ∃ s, FreeAI.generateTopicSummary tg (qs ++ [x]) = some s := by
  rw [FreeAI.generateTopicSummary, if_neg (by simp)]
  exact ⟨_, rfl⟩

theorem relatedQuestionsOf_summary_some (tg : Tagger)
    (corpusResult : Except Unit (List ExistingQuestion)) (questionText : String) :
    ∃ s, FreeAI.generateTopicSummary tg (relatedQuestionsOf tg corpusResult questionText)
      = some s :=
  generateTopicSummary_append_singleton tg _ _

/-- C10: the cluster handed to the topic summarizer always ends with the new
question and is never empty, so the summarizer never returns none on this
path and both the broadcast topic cluster and the persisted `topic_cluster`
column always come from the summary title (never from the category
fallback); with a tagger yielding no keywords that title is the empty
string. -/
theorem C10_topic_label_always_from_summary (tg : Tagger) (cfg : AIConfig)
    (remoteCat : String → Except Unit ZeroShotResult)
    (remoteSent : String → Except Unit SentimentResult)
    (questionId : String) (corpusResult : Except Unit (List ExistingQuestion))
    (data : SubmissionData) :
    (∃ s, (handleSubmitQuestion tg cfg remoteCat remoteSent questionId
        corpusResult data).2.topicSummary = some s ∧
      (handleSubmitQuestion tg cfg remoteCat remoteSent questionId
        corpusResult data).2.topicCluster = s.title ∧
      (handleSubmitQuestion tg cfg remoteCat remoteSent questionId
        corpusResult data).1.topic_cluster = s.title) ∧
    (handleSubmitQuestion emptyTagger ⟨false, false⟩ (fun _ => Except.error ())
      (fun _ => Except.error ()) "q2" (Except.ok [])
      ⟨"ROOM2", "bob", "Hello there", "neutral"⟩).2.topicCluster = "" := by
  constructor
  · obtain ⟨s, hs⟩ := relatedQuestionsOf_summary_some tg corpusResult data.questionText
    refine ⟨s, ?_, ?_, ?_⟩ <;> simp [handleSubmitQuestion, hs]
  · rfl


end Classroom
